import Mathlib

/-!
Shallow embedding of the recursive DNS resolver in `src/main.rs` and proofs
about it.  The resolver walks the DNS hierarchy starting at a hard-coded root
server; per step it classifies the upstream reply (`get_next_server`), follows
glue, performs glue-less sub-resolutions, and caches the top-level terminal
reply.  Machine-level wire parsing is abstracted: an upstream exchange is an
oracle `Net` from question and server address to a decoded message or a
transport/decode failure, mirroring `DnsServer::lookup`'s `Result<Message>`.
The unbounded `loop` in `recurse` is embedded with an explicit fuel argument;
the distinguished result `RRes.diverge` means the real program would still be
running after that many steps, so `∀ fuel, ... = .diverge` expresses
non-termination of the source loop.
-/

/-- A DNS label; a domain name is its list of labels, leaf label first
(`www.test` is `["www", "test"]`). -/
abbrev Label := String

/-- A domain name (`Dname` / `ParsedDname` in the source). -/
abbrev Dname := List Label

/-- `Dname::ends_with`: the DNS zone-cut test, true when `owner` is a label
suffix of `qname`. -/
def dnameEndsWith (qname owner : Dname) : Bool :=
  owner.isSuffixOf qname

/-- An IPv4 address, as its 32-bit numeric value. -/
abbrev Ipv4 := Nat

/-- A socket address `SocketAddrV4`: IPv4 address and port. -/
abbrev Addr := Ipv4 × Nat

/-- `ROOT_NAMESERVER`: hard-coded root server 198.41.0.4 (main.rs line 21). -/
def ROOT_NAMESERVER : Ipv4 := ((198 * 256 + 41) * 256 + 0) * 256 + 4

/-- `DNS_PORT` (main.rs line 22). -/
def DNS_PORT : Nat := 53

/-- `LOCAL_PORT` (main.rs line 23): the port the service socket is bound to. -/
def LOCAL_PORT : Nat := 20053

/-- `OUTBOUND_PORT` (main.rs line 24): the port of the single outbound socket. -/
def OUTBOUND_PORT : Nat := 43210

/-- Resource record types the resolver interprets. -/
inductive Rtype where
  | a
  | ns
  | other
  deriving DecidableEq

/-- Response codes the resolver interprets (`Rcode`). -/
inductive Rcode where
  | noError
  | formErr
  | servFail
  | nxDomain
  | refused
  deriving DecidableEq

/-- A record of a message section, as the section iterators of the `domain`
crate present it.  `a`/`ns` are records that parse to those types; `other` is
any record of another type (skipped by `limit_to::<A>` / `limit_to::<Ns>`);
`badA`/`badNs` are records of type A resp. NS whose data fails to parse, which
those iterators yield as `Err(_)` items. -/
inductive SRecord where
  | a (owner : Dname) (addr : Ipv4)
  | ns (owner : Dname) (nsdname : Dname)
  | other (owner : Dname)
  | badA (owner : Dname)
  | badNs (owner : Dname)
  deriving DecidableEq

/-- A decoded DNS message as the resolver consumes it: response code plus the
answer, authority and additional sections (`response.sections()`). -/
structure Message where
  rcode : Rcode
  answer : List SRecord
  authority : List SRecord
  additional : List SRecord
  deriving DecidableEq

/-- A question `(qname, qtype, qclass)`; class IN is `1`. -/
structure Question where
  qname : Dname
  qtype : Rtype
  qclass : Nat
  deriving DecidableEq

/-- `section.limit_to::<A>()`: the iterator over a section restricted to A
records.  `some (owner, addr)` is an `Ok` item, `none` an `Err` item (an
A-typed record whose data fails to parse); records of other types yield no
item. -/
def limitToA : List SRecord → List (Option (Dname × Ipv4))
  | [] => []
  | SRecord.a owner addr :: rest => some (owner, addr) :: limitToA rest
  | SRecord.badA _ :: rest => none :: limitToA rest
  | _ :: rest => limitToA rest

/-- `section.limit_to::<Ns>()`: as `limitToA`, for NS records;
`some (owner, nsdname)` is an `Ok` item. -/
def limitToNs : List SRecord → List (Option (Dname × Dname))
  | [] => []
  | SRecord.ns owner nsdname :: rest => some (owner, nsdname) :: limitToNs rest
  | SRecord.badNs _ :: rest => none :: limitToNs rest
  | _ :: rest => limitToNs rest

/-- `relevant_hosts` (main.rs lines 76-88): the `nsdname`s of the authority
section's NS records whose owner is a label suffix of the question name,
in section order; `Err` items are dropped. -/
def relevantHosts (authority : List SRecord) (qname : Dname) : List Dname :=
  (limitToNs authority).filterMap fun item =>
    match item with
    | some (owner, nsdname) =>
      if dnameEndsWith qname owner then some nsdname else none
    | none => none

/-- `resolved_ns` (main.rs lines 91-109) before `.next()`: for each candidate
NS name in order, the addresses of the additional-section A records owned by
that name, in section order.  The code takes the head of this list, so glue is
found in candidate-NS-major order. -/
def glueAddrs (hosts : List Dname) (additional : List SRecord) : List Ipv4 :=
  hosts.flatMap fun host =>
    (limitToA additional).filterMap fun item =>
      match item with
      | some (owner, addr) => if owner = host then some addr else none
      | none => none

/-- The classification `get_next_server` computes before any sub-resolution
(main.rs lines 64-118): terminal reply, glue address found, or first candidate
NS name needing a sub-resolution. -/
inductive Classify where
  | terminal
  | glue (addr : Ipv4)
  | subResolve (name : Dname)
  deriving DecidableEq

/-- The pure part of `get_next_server` (main.rs lines 64-118): early terminal
returns for an answered `NoError` reply and for `NXDomain`; otherwise glue
lookup (`resolved_ns`) first, then the first unresolved candidate NS name
(`unresolved_ns`), and terminal when there is no candidate at all. -/
def classifyResponse (resp : Message) (qname : Dname) : Classify :=
  if resp.answer ≠ [] ∧ resp.rcode = Rcode.noError then Classify.terminal
  else if resp.rcode = Rcode.nxDomain then Classify.terminal
  else
    let hosts := relevantHosts resp.authority qname
    match (glueAddrs hosts resp.additional).head? with
    | some addr => Classify.glue addr
    | none =>
      match hosts.head? with
      | some name => Classify.subResolve name
      | none => Classify.terminal

/-- The cache: `HashMap<Question, Message>`, as an association list. -/
abbrev Cache := List (Question × Message)

/-- `HashMap::get` on the cache. -/
def cacheGet : Cache → Question → Option Message
  | [], _ => none
  | (k, v) :: rest, q => if k = q then some v else cacheGet rest q

/-- `HashMap::insert`: prepending overwrites, because `cacheGet` returns the
first match. -/
def cacheInsert (c : Cache) (k : Question) (m : Message) : Cache :=
  (k, m) :: c

/-- The `DnsServer` struct: the cache, the random generator (modelled as a
stream of draws) and the single outbound socket created by `DnsServer::new`
(modelled by its identifier). -/
structure DnsServer where
  cache : Cache
  rng : List Nat
  socket : Nat
  deriving DecidableEq

/-- Drawing from the random generator: one draw per `choose` call. -/
def rngDraw (s : DnsServer) : Nat × DnsServer :=
  (s.rng.headD 0, { s with rng := s.rng.tail })

/-- `IteratorRandom::choose`: `none` on an empty iterator, otherwise a
uniformly chosen element, modelled by indexing with the draw modulo the
length. -/
def chooseFrom (r : Nat) (l : List α) : Option α :=
  match l with
  | [] => none
  | _ => l.get? (r % l.length)

/-- The network/transport oracle abstracting `DnsServer::lookup` (main.rs
lines 43-57): given the question and the server address, either the decoded
reply or a transport/decode failure (`anyhow` error). -/
abbrev Net := Question → Addr → Except Unit Message

/-- Outcome of `recurse`:  `ok` and `fail` mirror `Result<Message>` and carry
the server state; `diverge` means the source's unbounded loop has not finished
within the given fuel. -/
inductive RRes where
  | ok (s : DnsServer) (m : Message)
  | fail (s : DnsServer)
  | diverge
  deriving DecidableEq

mutual

/-- `get_next_server` (main.rs lines 59-135).  Returns `none` when the
sub-resolution it performs does not finish within the fuel; otherwise the
updated server state and the `(done, next_server)` pair. -/
def getNextServer (net : Net) (fuel : Nat) (s : DnsServer) (resp : Message)
    (q : Question) : Option (DnsServer × Bool × Option Addr) :=
  match classifyResponse resp q.qname with
  | Classify.terminal => some (s, true, none)
  | Classify.glue addr => some (s, false, some (addr, DNS_PORT))
  | Classify.subResolve name =>
    match fuel with
    | 0 => none
    | fuel' + 1 =>
      match recurse net fuel' s ⟨name, Rtype.a, 1⟩ false with
      | RRes.ok s1 msg =>
        let (r, s2) := rngDraw s1
        match chooseFrom r (limitToA msg.answer) with
        | some (some (_, addr)) => some (s2, false, some (addr, DNS_PORT))
        | _ => some (s2, true, none)
      | RRes.fail s1 => some (s1, true, none)
      | RRes.diverge => none

/-- The `loop` of `run_lookup` (main.rs lines 148-164), entered with the
current reply and the `(done, name_server)` pair from `get_next_server`.
While `(false, Some server)` it queries `server` and reclassifies; otherwise
it inserts the reply into the cache when `key` is present and returns it. -/
def resolveLoop (net : Net) (q : Question) (key : Option Question) (fuel : Nat)
    (s : DnsServer) (resp : Message) (done : Bool) (nextServer : Option Addr) :
    RRes :=
  match done, nextServer with
  | false, some server =>
    match fuel with
    | 0 => RRes.diverge
    | fuel' + 1 =>
      match net q server with
      | Except.error _ => RRes.fail s
      | Except.ok resp' =>
        match getNextServer net fuel' s resp' q with
        | none => RRes.diverge
        | some (s', done', ns') => resolveLoop net q key fuel' s' resp' done' ns'
  | _, _ =>
    match key with
    | some k => RRes.ok { s with cache := cacheInsert s.cache k resp } resp
    | none => RRes.ok s resp

/-- `recurse` (main.rs lines 137-181).  With `check_cache` it first consults
the cache and on a hit returns the stored reply; otherwise it runs
`run_lookup`: query the root server, classify, and enter the loop, passing the
canonical question as insertion key exactly when `check_cache` is set. -/
def recurse (net : Net) (fuel : Nat) (s : DnsServer) (q : Question)
    (check_cache : Bool) : RRes :=
  match fuel with
  | 0 => RRes.diverge
  | fuel' + 1 =>
    let key : Option Question := if check_cache then some q else none
    let hit : Option Message := if check_cache then cacheGet s.cache q else none
    match hit with
    | some respc => RRes.ok s respc
    | none =>
      match net q (ROOT_NAMESERVER, DNS_PORT) with
      | Except.error _ => RRes.fail s
      | Except.ok resp =>
        match getNextServer net fuel' s resp q with
        | none => RRes.diverge
        | some (s', done, ns) => resolveLoop net q key fuel' s' resp done ns

end

/-- The decoded view of a client request that `handle_query` consumes: header
id and flags (mirrored into replies by `start_answer`) and the outcome of
`request.sole_question()` (`none` when the request has zero or several
questions). -/
structure ReqInfo where
  reqId : Nat
  flags : Nat
  soleQuestion : Option Question
  deriving DecidableEq

/-- A reply built by `handle_query`: header mirroring the request (via
`start_answer`), the chosen response code, and the three record sections. -/
structure Reply where
  id : Nat
  flags : Nat
  rcode : Rcode
  answer : List SRecord
  authority : List SRecord
  additional : List SRecord
  deriving DecidableEq

/-- `MessageBuilder::start_answer(request, rcode)`: an empty reply scoped to
the request, mirroring its id and flags. -/
def startAnswer (req : ReqInfo) (rc : Rcode) : Reply :=
  { id := req.reqId, flags := req.flags, rcode := rc,
    answer := [], authority := [], additional := [] }

/-- `valid_records` (main.rs lines 195-198): records re-parsed as
`AllRecordData` with `Err` items silently dropped; every well-formed record of
any type survives, unparseable ones are removed. -/
def validRecords : List SRecord → List SRecord :=
  List.filter fun r =>
    match r with
    | SRecord.badA _ => false
    | SRecord.badNs _ => false
    | _ => true

/-- Outcome of one `handle_query` call: a reply sent back to the client, an
error returned to the caller (`main` logs it; no reply datagram is sent), or
an unfinished resolution (fuel exhausted in the model). -/
inductive HandleResult where
  | reply (r : Reply)
  | err
  | noFuel
  deriving DecidableEq

/-- `handle_query` (main.rs lines 183-235), with the wire codec abstracted by
`decode` (the `Message::from_octets` call on the receive buffer's bytes).  On
decode failure the `?` operator propagates the error: no reply of any kind is
produced.  A decoded request without exactly one question gets a `FormErr`
reply; otherwise the resolver runs with `use_cache = true` and its terminal
reply's rcode and filtered sections are copied into the reply, a resolver
failure becoming `ServFail`. -/
def handle_query (decode : List Nat → Except Unit ReqInfo) (net : Net)
    (fuel : Nat) (s : DnsServer) (buf : List Nat) : DnsServer × HandleResult :=
  match decode buf with
  | Except.error _ => (s, HandleResult.err)
  | Except.ok req =>
    match req.soleQuestion with
    | none => (s, HandleResult.reply (startAnswer req Rcode.formErr))
    | some q =>
      match recurse net fuel s q true with
      | RRes.ok s' m =>
        (s', HandleResult.reply
          { startAnswer req m.rcode with
            answer := validRecords m.answer,
            authority := validRecords m.authority,
            additional := validRecords m.additional })
      | RRes.fail s' => (s', HandleResult.reply (startAnswer req Rcode.servFail))
      | RRes.diverge => (s, HandleResult.noFuel)

/-- Socket-level side effects, for the resource-lifecycle claims. -/
inductive SockOp where
  | bindTo (port : Nat)
  | sendTo (sock : Nat) (dest : Addr)
  | recvFrom (sock : Nat)
  | close (sock : Nat)
  deriving DecidableEq

/-- Identifier of the one outbound socket `DnsServer::new` binds and stores in
`self.socket` (main.rs line 36). -/
def serverSocket : Nat := 0

/-- Socket operations performed by `DnsServer::new` (main.rs lines 33-39):
bind one UDP socket to `0.0.0.0:OUTBOUND_PORT`.  The socket is stored in the
struct and never closed while the server lives. -/
def dnsServerNewOps : List SockOp := [SockOp.bindTo OUTBOUND_PORT]

/-- Socket operations performed by one `lookup` call (main.rs lines 43-57):
`self.socket.send_to(..)` then `self.socket.recv_from(..)`, both on the
server's stored socket; no socket is created, bound or closed. -/
def lookupOps (sock : Nat) (dest : Addr) : List SockOp :=
  [SockOp.sendTo sock dest, SockOp.recvFrom sock]

/-- The socket-operation trace of a server lifetime performing upstream
queries to `dests` in order: construction followed by one `lookup` per
destination. -/
def sessionOps (dests : List Addr) : List SockOp :=
  dnsServerNewOps ++ dests.flatMap (lookupOps serverSocket)

/-- Is the operation a socket allocation? -/
def SockOp.isBindTo : SockOp → Bool
  | SockOp.bindTo _ => true
  | _ => false

/-- Is the operation a socket release? -/
def SockOp.isClose : SockOp → Bool
  | SockOp.close _ => true
  | _ => false

/-- Does the operation touch only the given socket (binds are attributed to
the socket they create)? -/
def SockOp.usesOnly (sock : Nat) : SockOp → Bool
  | SockOp.sendTo s _ => s == sock
  | SockOp.recvFrom s => s == sock
  | SockOp.close s => s == sock
  | SockOp.bindTo _ => true

/-- The octets `lookup` hands to `Message::from_octets` when the upstream
datagram is `datagram` (main.rs lines 53-55): `recv_from` copies at most 512
bytes of the datagram into the fresh zeroed 512-byte buffer and its returned
byte count is discarded, so the whole buffer is decoded: short datagrams are
zero-padded, longer ones truncated. -/
def lookupReceivedOctets (datagram : List Nat) : List Nat :=
  datagram.take 512 ++ List.replicate (512 - datagram.length) 0

/-- The socket address `main` binds the service socket to (main.rs line 241):
`("0.0.0.0", LOCAL_PORT)`. -/
def mainListenerBind : Ipv4 × Nat := (0, LOCAL_PORT)

/-- Written from the spec's words for the refinement check of glue selection
(spec §4.3.1 step 5): scan `R.additional` in section order for the first A
record whose owner equals any name in `candidate_ns`. -/
def specGlueAdditionalOrder (candidateNs : List Dname)
    (additional : List SRecord) : Option Ipv4 :=
  ((limitToA additional).filterMap fun item =>
    match item with
    | some (owner, addr) => if owner ∈ candidateNs then some addr else none
    | none => none).head?

/-- Replace the cache component of a server state. -/
def setCacheS (c : Cache) (s : DnsServer) : DnsServer :=
  { s with cache := c }

/-- Replace the cache component of the state inside a resolver outcome. -/
def mapResCache (c : Cache) : RRes → RRes
  | RRes.ok s m => RRes.ok (setCacheS c s) m
  | RRes.fail s => RRes.fail (setCacheS c s)
  | RRes.diverge => RRes.diverge

/-- An upstream reply with `NoError`, no answer, no authority and no
additional records: a terminal reply that is neither an authoritative answer
nor an NXDOMAIN (an unfollowable reply). -/
def respU : Message :=
  { rcode := Rcode.noError, answer := [], authority := [], additional := [] }

/-- An oracle whose every reply is `respU`. -/
def netU : Net := fun _ _ => Except.ok respU

/-- A sample client question `A www.test.`. -/
def q1 : Question := ⟨["www", "test"], Rtype.a, 1⟩

/-- Fresh server state: empty cache, no random draws consumed. -/
def s0 : DnsServer := ⟨[], [], 0⟩

/-- The server state after resolving `q1` against `netU` from `s0`: the
unfollowable terminal reply has been inserted into the cache. -/
def sFin : DnsServer := ⟨[(q1, respU)], [], 0⟩

/-- Addresses of the two name servers of the cyclic-delegation oracle. -/
def ipA : Ipv4 := 1

/-- Second server of the cyclic-delegation oracle. -/
def ipB : Ipv4 := 2

/-- Question caught in the delegation cycle. -/
def qC : Question := ⟨["www", "loop"], Rtype.a, 1⟩

/-- Referral (with glue) to the server at `ipA`. -/
def respToA : Message :=
  { rcode := Rcode.noError, answer := [],
    authority := [SRecord.ns ["loop"] ["a", "loop"]],
    additional := [SRecord.a ["a", "loop"] ipA] }

/-- Referral (with glue) to the server at `ipB`. -/
def respToB : Message :=
  { rcode := Rcode.noError, answer := [],
    authority := [SRecord.ns ["loop"] ["b", "loop"]],
    additional := [SRecord.a ["b", "loop"] ipB] }

/-- The cyclic-delegation oracle: the root refers to `ipA`, `ipA` refers to
`ipB`, `ipB` refers back to `ipA`; nobody ever answers. -/
def netCyc : Net := fun _ addr =>
  if addr = (ipA, DNS_PORT) then Except.ok respToB
  else if addr = (ipB, DNS_PORT) then Except.ok respToA
  else Except.ok respToA

/-- Glue address carried by `ns1.test` in `respGlue`. -/
def ip7 : Ipv4 := 7

/-- Glue address carried by `ns2.test` in `respGlue`. -/
def ip9 : Ipv4 := 9

/-- A delegation reply with two candidate NS names whose glue records appear
in the additional section in the opposite order: the first additional A record
belongs to the second candidate. -/
def respGlue : Message :=
  { rcode := Rcode.noError, answer := [],
    authority := [SRecord.ns ["test"] ["ns1", "test"],
                  SRecord.ns ["test"] ["ns2", "test"]],
    additional := [SRecord.a ["ns2", "test"] ip9,
                   SRecord.a ["ns1", "test"] ip7] }

/-- A delegation reply with one candidate NS name and no glue, forcing a
sub-resolution. -/
def respNoGlue : Message :=
  { rcode := Rcode.noError, answer := [],
    authority := [SRecord.ns ["test"] ["ns1", "other"]],
    additional := [] }

/-- The sub-question `get_next_server` issues for `respNoGlue`. -/
def subQ : Question := ⟨["ns1", "other"], Rtype.a, 1⟩

/-- Terminal reply of the sub-resolution: its answer section holds one
unparseable A-typed record followed by one well-formed A record. -/
def msgSub : Message :=
  { rcode := Rcode.noError,
    answer := [SRecord.badA ["ns1", "other"],
               SRecord.a ["ns1", "other"] 5],
    authority := [], additional := [] }

/-- An oracle whose every reply is `msgSub`. -/
def net6 : Net := fun _ _ => Except.ok msgSub

/-- Server state for the `respNoGlue` scenario: the first random draw is 0,
picking the unparseable first item of the A-filtered answer iterator. -/
def s6 : DnsServer := ⟨[], [0], 0⟩

/-- A codec oracle on which every buffer fails to decode. -/
def decodeFailAll : List Nat → Except Unit ReqInfo := fun _ => Except.error ()

theorem chooseFrom_mem {α : Type} {r : Nat} {l : List α} {x : α}
    (h : chooseFrom r l = some x) : x ∈ l := by
  unfold chooseFrom at h
  match l, h with
  | a :: rest, h => exact List.get?_mem h

theorem setCacheS_self (s : DnsServer) : setCacheS s.cache s = s := by
  cases s
  rfl

theorem rngDraw_setCacheS (c : Cache) (s : DnsServer) :
    rngDraw (setCacheS c s) = ((rngDraw s).1, setCacheS c (rngDraw s).2) := by
  cases s
  rfl

theorem getNextServer_of_terminal (net : Net) (fuel : Nat) (s : DnsServer)
    (resp : Message) (q : Question)
    (h : classifyResponse resp q.qname = Classify.terminal) :
    getNextServer net fuel s resp q = some (s, true, none) := by
  simp [getNextServer, h]

theorem getNextServer_of_glue (net : Net) (fuel : Nat) (s : DnsServer)
    (resp : Message) (q : Question) (addr : Ipv4)
    (h : classifyResponse resp q.qname = Classify.glue addr) :
    getNextServer net fuel s resp q = some (s, false, some (addr, DNS_PORT)) := by
  simp [getNextServer, h]

theorem getNextServer_of_subResolve (net : Net) (fuel : Nat) (s : DnsServer)
    (resp : Message) (q : Question) (name : Dname)
    (h : classifyResponse resp q.qname = Classify.subResolve name) :
    getNextServer net (fuel + 1) s resp q =
      (match recurse net fuel s ⟨name, Rtype.a, 1⟩ false with
       | RRes.ok s1 msg =>
         match chooseFrom (rngDraw s1).1 (limitToA msg.answer) with
         | some (some (_, addr)) =>
           some ((rngDraw s1).2, false, some (addr, DNS_PORT))
         | _ => some ((rngDraw s1).2, true, none)
       | RRes.fail s1 => some (s1, true, none)
       | RRes.diverge => none) := by
  simp only [getNextServer, h]

theorem resolveLoop_step (net : Net) (q : Question) (key : Option Question)
    (fuel : Nat) (s : DnsServer) (resp : Message) (server : Addr) :
    resolveLoop net q key (fuel + 1) s resp false (some server) =
      (match net q server with
       | Except.error _ => RRes.fail s
       | Except.ok resp' =>
         match getNextServer net fuel s resp' q with
         | none => RRes.diverge
         | some (s', done', ns') =>
           resolveLoop net q key fuel s' resp' done' ns') := rfl

theorem resolveLoop_stuck (net : Net) (q : Question) (key : Option Question)
    (s : DnsServer) (resp : Message) (server : Addr) :
    resolveLoop net q key 0 s resp false (some server) = RRes.diverge := rfl

theorem resolveLoop_done_true (net : Net) (q : Question) (key : Option Question)
    (fuel : Nat) (s : DnsServer) (resp : Message) (n : Option Addr) :
    resolveLoop net q key fuel s resp true n =
      (match key with
       | some k => RRes.ok { s with cache := cacheInsert s.cache k resp } resp
       | none => RRes.ok s resp) := by
  cases n <;> cases fuel <;> rfl

theorem resolveLoop_done_none (net : Net) (q : Question) (key : Option Question)
    (fuel : Nat) (s : DnsServer) (resp : Message) (d : Bool) :
    resolveLoop net q key fuel s resp d none =
      (match key with
       | some k => RRes.ok { s with cache := cacheInsert s.cache k resp } resp
       | none => RRes.ok s resp) := by
  cases d <;> cases fuel <;> rfl

theorem recurse_zero (net : Net) (s : DnsServer) (q : Question) (cc : Bool) :
    recurse net 0 s q cc = RRes.diverge := rfl

theorem recurse_false_eq (net : Net) (fuel : Nat) (s : DnsServer) (q : Question) :
    recurse net (fuel + 1) s q false =
      (match net q (ROOT_NAMESERVER, DNS_PORT) with
       | Except.error _ => RRes.fail s
       | Except.ok resp =>
         match getNextServer net fuel s resp q with
         | none => RRes.diverge
         | some (s', done, ns) => resolveLoop net q none fuel s' resp done ns) :=
  rfl

theorem recurse_true_eq (net : Net) (fuel : Nat) (s : DnsServer) (q : Question) :
    recurse net (fuel + 1) s q true =
      (match cacheGet s.cache q with
       | some respc => RRes.ok s respc
       | none =>
         match net q (ROOT_NAMESERVER, DNS_PORT) with
         | Except.error _ => RRes.fail s
         | Except.ok resp =>
           match getNextServer net fuel s resp q with
           | none => RRes.diverge
           | some (s', done, ns) => resolveLoop net q (some q) fuel s' resp done ns) :=
  rfl

theorem cacheFrameAll (net : Net) : ∀ fuel : Nat,
    (∀ s c resp q, getNextServer net fuel (setCacheS c s) resp q =
      (getNextServer net fuel s resp q).map fun r => (setCacheS c r.1, r.2)) ∧
    (∀ q s c resp d n, resolveLoop net q none fuel (setCacheS c s) resp d n =
      mapResCache c (resolveLoop net q none fuel s resp d n)) ∧
    (∀ s c q, recurse net fuel (setCacheS c s) q false =
      mapResCache c (recurse net fuel s q false)) := by
  intro fuel
  induction fuel with
  | zero =>
    refine ⟨?_, ?_, ?_⟩
    · intro s c resp q
      cases hc : classifyResponse resp q.qname <;> simp [getNextServer, hc]
    · intro q s c resp d n
      cases d <;> cases n <;> simp [resolveLoop, mapResCache]
    · intro s c q
      simp [recurse, mapResCache]
  | succ fuel ih =>
    obtain ⟨ihG, ihL, ihR⟩ := ih
    have hG : ∀ s c resp q, getNextServer net (fuel + 1) (setCacheS c s) resp q =
        (getNextServer net (fuel + 1) s resp q).map fun r => (setCacheS c r.1, r.2) := by
      intro s c resp q
      cases hc : classifyResponse resp q.qname with
      | terminal => simp [getNextServer_of_terminal net _ _ _ _ hc]
      | glue addr => simp [getNextServer_of_glue net _ _ _ _ _ hc]
      | subResolve name =>
        rw [getNextServer_of_subResolve net fuel (setCacheS c s) resp q name hc,
          getNextServer_of_subResolve net fuel s resp q name hc, ihR]
        cases hr : recurse net fuel s ⟨name, Rtype.a, 1⟩ false with
        | ok s1 msg =>
          simp only [mapResCache, rngDraw_setCacheS]
          cases hch : chooseFrom (rngDraw s1).1 (limitToA msg.answer) with
          | none => simp [hch]
          | some v =>
            cases v with
            | none => simp [hch]
            | some pair => simp [hch]
        | fail s1 => simp [mapResCache]
        | diverge => simp [mapResCache]
    have hL : ∀ q s c resp d n, resolveLoop net q none (fuel + 1) (setCacheS c s) resp d n =
        mapResCache c (resolveLoop net q none (fuel + 1) s resp d n) := by
      intro q s c resp d n
      match d, n with
      | true, n => simp [resolveLoop_done_true, mapResCache]
      | false, none => simp [resolveLoop_done_none, mapResCache]
      | false, some server =>
        rw [resolveLoop_step, resolveLoop_step]
        cases hnet : net q server with
        | error e => simp [mapResCache]
        | ok resp' =>
          simp only [ihG]
          cases hg : getNextServer net fuel s resp' q with
          | none => simp [mapResCache]
          | some trip =>
            obtain ⟨s1, d1, n1⟩ := trip
            simp only [Option.map_some']
            exact ihL q s1 c resp' d1 n1
    refine ⟨hG, hL, ?_⟩
    intro s c q
    rw [recurse_false_eq, recurse_false_eq]
    cases hnet : net q (ROOT_NAMESERVER, DNS_PORT) with
    | error e => simp [mapResCache, setCacheS]
    | ok resp =>
      simp only [ihG]
      cases hg : getNextServer net fuel s resp q with
      | none => simp [mapResCache]
      | some trip =>
        obtain ⟨s1, d1, n1⟩ := trip
        simp only [Option.map_some']
        exact ihL q s1 c resp d1 n1

theorem getNextServer_cache_eq {net : Net} {fuel : Nat} {s s1 : DnsServer}
    {resp : Message} {q : Question} {d : Bool} {n : Option Addr}
    (h : getNextServer net fuel s resp q = some (s1, d, n)) :
    s1.cache = s.cache := by
  have hG := (cacheFrameAll net fuel).1 s s.cache resp q
  rw [setCacheS_self, h, Option.map_some'] at hG
  have h2 := Option.some.inj hG
  have h3 := congrArg (fun p => p.1.cache) h2
  simpa [setCacheS] using h3

theorem resolveLoop_none_cache_eq_ok {net : Net} {q : Question} {fuel : Nat}
    {s s' : DnsServer} {resp m : Message} {d : Bool} {n : Option Addr}
    (h : resolveLoop net q none fuel s resp d n = RRes.ok s' m) :
    s'.cache = s.cache := by
  have hL := (cacheFrameAll net fuel).2.1 q s s.cache resp d n
  rw [setCacheS_self, h] at hL
  have h3 := congrArg (fun r => match r with
    | RRes.ok s _ => s.cache
    | RRes.fail s => s.cache
    | RRes.diverge => s.cache) hL
  simpa [mapResCache, setCacheS] using h3

theorem resolveLoop_none_cache_eq_fail {net : Net} {q : Question} {fuel : Nat}
    {s s' : DnsServer} {resp : Message} {d : Bool} {n : Option Addr}
    (h : resolveLoop net q none fuel s resp d n = RRes.fail s') :
    s'.cache = s.cache := by
  have hL := (cacheFrameAll net fuel).2.1 q s s.cache resp d n
  rw [setCacheS_self, h] at hL
  have h3 := congrArg (fun r => match r with
    | RRes.ok s _ => s.cache
    | RRes.fail s => s.cache
    | RRes.diverge => s.cache) hL
  simpa [mapResCache, setCacheS] using h3

theorem resolveLoop_key_insert (net : Net) (q k : Question) : ∀ (fuel : Nat)
    (s : DnsServer) (resp : Message) (d : Bool) (n : Option Addr),
    resolveLoop net q (some k) fuel s resp d n =
      (match resolveLoop net q none fuel s resp d n with
       | RRes.ok s' m => RRes.ok { s' with cache := cacheInsert s'.cache k m } m
       | r => r) := by
  intro fuel
  induction fuel with
  | zero =>
    intro s resp d n
    match d, n with
    | true, n => simp [resolveLoop_done_true]
    | false, none => simp [resolveLoop_done_none]
    | false, some server => simp [resolveLoop_stuck]
  | succ fuel ih =>
    intro s resp d n
    match d, n with
    | true, n => simp [resolveLoop_done_true]
    | false, none => simp [resolveLoop_done_none]
    | false, some server =>
      rw [resolveLoop_step, resolveLoop_step]
      cases hnet : net q server with
      | error e => simp
      | ok resp' =>
        cases hg : getNextServer net fuel s resp' q with
        | none => simp [hg]
        | some trip =>
          obtain ⟨s1, d1, n1⟩ := trip
          simp only [hg]
          exact ih s1 resp' d1 n1

/-- C1: for every upstream reply and question, `get_next_server` returns
either `(true, _)` or `(false, Some _)`; it never returns `(false, None)`.
Stated on every non-divergent outcome of the embedded `getNextServer`. -/
theorem c1_next_server_postcondition (net : Net) (fuel : Nat) (s s' : DnsServer)
    (resp : Message) (q : Question) (d : Bool) (n : Option Addr)
    (h : getNextServer net fuel s resp q = some (s', d, n)) :
    d = true ∨ n.isSome = true := by
  cases hc : classifyResponse resp q.qname with
  | terminal =>
    rw [getNextServer_of_terminal net fuel s resp q hc] at h
    simp at h
    exact Or.inl h.2.1
  | glue addr =>
    rw [getNextServer_of_glue net fuel s resp q addr hc] at h
    simp at h
    rw [← h.2.2]
    exact Or.inr rfl
  | subResolve name =>
    cases fuel with
    | zero => simp [getNextServer, hc] at h
    | succ fuel =>
      rw [getNextServer_of_subResolve net fuel s resp q name hc] at h
      cases hr : recurse net fuel s ⟨name, Rtype.a, 1⟩ false with
      | ok s1 msg =>
        rw [hr] at h
        cases hch : chooseFrom (rngDraw s1).1 (limitToA msg.answer) with
        | none =>
          simp only [hch] at h
          simp at h
          exact Or.inl h.2.1
        | some v =>
          cases v with
          | none =>
            simp only [hch] at h
            simp at h
            exact Or.inl h.2.1
          | some pair =>
            obtain ⟨owner, addr⟩ := pair
            simp only [hch] at h
            simp at h
            rw [← h.2.2]
            exact Or.inr rfl
      | fail s1 =>
        rw [hr] at h
        simp at h
        exact Or.inl h.2.1
      | diverge =>
        rw [hr] at h
        simp at h

/-- Witness for C1 at a concrete terminal reply. -/
theorem c1_next_server_postcondition_witness :
    true = true ∨ (none : Option Addr).isSome = true :=
  c1_next_server_postcondition netU 0 s0 s0 respU q1 true none (by decide)

theorem cyc_loop_diverges : ∀ (fuel : Nat) (s : DnsServer) (resp : Message),
    resolveLoop netCyc qC (some qC) fuel s resp false (some (ipA, DNS_PORT)) =
        RRes.diverge ∧
    resolveLoop netCyc qC (some qC) fuel s resp false (some (ipB, DNS_PORT)) =
        RRes.diverge := by
  intro fuel
  induction fuel with
  | zero =>
    intro s resp
    exact ⟨resolveLoop_stuck netCyc qC (some qC) s resp (ipA, DNS_PORT),
      resolveLoop_stuck netCyc qC (some qC) s resp (ipB, DNS_PORT)⟩
  | succ fuel ih =>
    intro s resp
    have hA : netCyc qC (ipA, DNS_PORT) = Except.ok respToB := rfl
    have hB : netCyc qC (ipB, DNS_PORT) = Except.ok respToA := rfl
    have hgB : getNextServer netCyc fuel s respToB qC =
        some (s, false, some (ipB, DNS_PORT)) :=
      getNextServer_of_glue netCyc fuel s respToB qC ipB (by decide)
    have hgA : getNextServer netCyc fuel s respToA qC =
        some (s, false, some (ipA, DNS_PORT)) :=
      getNextServer_of_glue netCyc fuel s respToA qC ipA (by decide)
    constructor
    · rw [resolveLoop_step]
      simp only [hA, hgB]
      exact (ih s respToB).2
    · rw [resolveLoop_step]
      simp only [hB, hgA]
      exact (ih s respToA).1

/-- C2: the claim says the loop in `recurse` enforces a maximum hop count and
sub-resolution depth, so the resolver terminates on every input.  The source
has no such bound: on a cyclic delegation (root refers with glue to `ipA`,
which refers to `ipB`, which refers back to `ipA`) the loop runs forever.  In
the fuel-indexed embedding, the run is unfinished at every fuel. -/
theorem c2_nontermination (fuel : Nat) :
    recurse netCyc fuel s0 qC true = RRes.diverge := by
  cases fuel with
  | zero => exact recurse_zero netCyc s0 qC true
  | succ fuel =>
    rw [recurse_true_eq]
    have h0 : cacheGet s0.cache qC = none := by decide
    have h1 : netCyc qC (ROOT_NAMESERVER, DNS_PORT) = Except.ok respToA := rfl
    have hg : getNextServer netCyc fuel s0 respToA qC =
        some (s0, false, some (ipA, DNS_PORT)) :=
      getNextServer_of_glue netCyc fuel s0 respToA qC ipA (by decide)
    simp only [h0, h1, hg]
    exact (cyc_loop_diverges fuel s0 respToA).1

/-- C3 counterexample: the claim says glue is taken from the first matching A
record in additional-section order.  On `respGlue` the first additional A
record (`ns2.test → ip9`) belongs to the second candidate NS name, but the
code returns `ip7`, the glue of the first candidate: glue is selected in
candidate-NS-major order, not additional-section order. -/
theorem c3_counterexample :
    getNextServer netU 0 s0 respGlue q1 = some (s0, false, some (ip7, DNS_PORT)) ∧
    specGlueAdditionalOrder (relevantHosts respGlue.authority q1.qname)
      respGlue.additional = some ip9 ∧
    ip7 ≠ ip9 := by decide

/-- C3 amended: when the reply is not terminal by the early checks and the
candidate-NS-major glue scan (`glueAddrs`: candidates in authority order, and
for each candidate the additional section in order) is non-empty,
`get_next_server` returns `(false, Some((addr, 53)))` with `addr` the first
element of that scan. -/
theorem c3_amended_glue_order (net : Net) (fuel : Nat) (s : DnsServer)
    (resp : Message) (q : Question) (addr : Ipv4) (rest : List Ipv4)
    (h1 : resp.answer = [] ∨ resp.rcode ≠ Rcode.noError)
    (h2 : resp.rcode ≠ Rcode.nxDomain)
    (h3 : glueAddrs (relevantHosts resp.authority q.qname) resp.additional =
      addr :: rest) :
    getNextServer net fuel s resp q = some (s, false, some (addr, DNS_PORT)) := by
  have hcond : ¬(resp.answer ≠ [] ∧ resp.rcode = Rcode.noError) := by
    rintro ⟨ha, hr⟩
    rcases h1 with h | h
    · exact ha h
    · exact h hr
  have hc : classifyResponse resp q.qname = Classify.glue addr := by
    unfold classifyResponse
    rw [if_neg hcond, if_neg h2]
    simp only [h3, List.head?_cons]
  exact getNextServer_of_glue net fuel s resp q addr hc

/-- Witness for the amended C3 at the concrete reply `respGlue`. -/
theorem c3_amended_glue_order_witness :
    getNextServer net6 0 s0 respGlue q1 = some (s0, false, some (ip7, DNS_PORT)) :=
  c3_amended_glue_order net6 0 s0 respGlue q1 ip7 [ip9] (Or.inl rfl) (by decide)
    (by decide)

/-- C4 counterexample: with `use_cache = true`, resolving `q1` against an
oracle that immediately returns `respU` — a terminal reply that is neither an
authoritative answer (its answer section is empty) nor an NXDOMAIN, i.e. an
unfollowable reply — still inserts the reply into the cache, contradicting the
claim that only authoritative answers and NXDOMAINs are inserted. -/
theorem c4_counterexample :
    recurse netU 1 s0 q1 true = RRes.ok sFin respU ∧
    respU.answer = [] ∧
    respU.rcode ≠ Rcode.nxDomain ∧
    cacheGet sFin.cache q1 = some respU := by decide

/-- C4 amended: with `use_cache = true`, an aborted resolution (transport or
decode error) never changes the cache, and a completed resolution either was a
cache hit (state unchanged) or inserted exactly its terminal reply — whatever
kind of terminal reply it is. -/
theorem c4_amended_cache_insertion (net : Net) (fuel : Nat) (s : DnsServer)
    (q : Question) :
    (∀ s', recurse net fuel s q true = RRes.fail s' → s'.cache = s.cache) ∧
    (∀ s' m, recurse net fuel s q true = RRes.ok s' m →
      (cacheGet s.cache q = some m ∧ s' = s) ∨
      s'.cache = cacheInsert s.cache q m) := by
  cases fuel with
  | zero =>
    constructor
    · intro s' h
      rw [recurse_zero] at h
      simp at h
    · intro s' m h
      rw [recurse_zero] at h
      simp at h
  | succ fuel =>
    cases hhit : cacheGet s.cache q with
    | some respc =>
      have he : recurse net (fuel + 1) s q true = RRes.ok s respc := by
        rw [recurse_true_eq]
        simp only [hhit]
      constructor
      · intro s' h
        rw [he] at h
        simp at h
      · intro s' m h
        rw [he] at h
        injection h with hs hm
        left
        constructor
        · exact congrArg some hm
        · exact hs.symm
    | none =>
      cases hnet : net q (ROOT_NAMESERVER, DNS_PORT) with
      | error e =>
        have he : recurse net (fuel + 1) s q true = RRes.fail s := by
          rw [recurse_true_eq]
          simp only [hhit, hnet]
        constructor
        · intro s' h
          rw [he] at h
          injection h with hs
          rw [← hs]
        · intro s' m h
          rw [he] at h
          simp at h
      | ok resp =>
        cases hg : getNextServer net fuel s resp q with
        | none =>
          have he : recurse net (fuel + 1) s q true = RRes.diverge := by
            rw [recurse_true_eq]
            simp only [hhit, hnet, hg]
          constructor
          · intro s' h
            rw [he] at h
            simp at h
          · intro s' m h
            rw [he] at h
            simp at h
        | some trip =>
          obtain ⟨s1, d1, n1⟩ := trip
          have hc1 : s1.cache = s.cache := getNextServer_cache_eq hg
          have he : recurse net (fuel + 1) s q true =
              resolveLoop net q (some q) fuel s1 resp d1 n1 := by
            rw [recurse_true_eq]
            simp only [hhit, hnet, hg]
          rw [he, resolveLoop_key_insert net q q fuel s1 resp d1 n1]
          cases hl : resolveLoop net q none fuel s1 resp d1 n1 with
          | ok s2 m2 =>
            have hc2 : s2.cache = s1.cache := resolveLoop_none_cache_eq_ok hl
            constructor
            · intro s' h
              simp at h
            · intro s' m h
              simp only [] at h
              injection h with hs hm
              right
              rw [← hs, ← hm]
              simp [cacheInsert, hc2, hc1]
          | fail s2 =>
            have hc2 : s2.cache = s1.cache := resolveLoop_none_cache_eq_fail hl
            constructor
            · intro s' h
              simp only [] at h
              injection h with hs
              rw [← hs, hc2, hc1]
            · intro s' m h
              simp at h
          | diverge =>
            constructor
            · intro s' h
              simp at h
            · intro s' m h
              simp at h

/-- Witness for the amended C4 at the concrete `netU` run. -/
theorem c4_amended_cache_insertion_witness :
    (cacheGet s0.cache q1 = some respU ∧ sFin = s0) ∨
    sFin.cache = cacheInsert s0.cache q1 respU :=
  (c4_amended_cache_insertion netU 1 s0 q1).2 sFin respU (by decide)

/-- C5: a sub-resolution (`recurse` with `check_cache = false`, the mode used
for every sub-resolution `get_next_server` spawns) neither reads nor writes
the cache: its whole behaviour is unchanged when the starting cache `c1` is
replaced by any `c2`, and the final state's cache is exactly the starting
cache. -/
theorem c5_subresolution_cache_frame (net : Net) (fuel : Nat) (c1 c2 : Cache)
    (rng : List Nat) (sock : Nat) (q : Question) :
    recurse net fuel ⟨c2, rng, sock⟩ q false =
      mapResCache c2 (recurse net fuel ⟨c1, rng, sock⟩ q false) := by
  have hR := (cacheFrameAll net fuel).2.2 ⟨c1, rng, sock⟩ c2 q
  simpa [setCacheS] using hR

/-- C6 counterexample: the sub-resolution for `respNoGlue`'s NS name succeeds
and its answer section contains a well-formed A record, yet the classifier
returns `(true, None)`: the random choice ranges over all items of the
A-filtered answer iterator including unparseable ones, and here it lands on
the unparseable first item. -/
theorem c6_counterexample :
    classifyResponse respNoGlue q1.qname = Classify.subResolve ["ns1", "other"] ∧
    recurse net6 1 s6 subQ false = RRes.ok s6 msgSub ∧
    (limitToA msgSub.answer).filterMap id = [(["ns1", "other"], 5)] ∧
    getNextServer net6 2 s6 respNoGlue q1 = some (⟨[], [], 0⟩, true, none) := by
  decide

/-- C6 amended: in the sub-resolution branch, if the sub-resolution succeeds
then the classifier either returns `(false, Some((addr, 53)))` with `addr`
taken from one of the items of the A-filtered answer iterator (the random
draw landed on a parseable A record) or `(true, None)` (the draw landed on an
unparseable item, or there were no A-typed items); if the sub-resolution
fails it returns `(true, None)`. -/
theorem c6_amended_subresolution (net : Net) (fuel : Nat) (s : DnsServer)
    (resp : Message) (q : Question) (name : Dname)
    (hc : classifyResponse resp q.qname = Classify.subResolve name) :
    (∀ s1 msg s2 d n,
      recurse net fuel s ⟨name, Rtype.a, 1⟩ false = RRes.ok s1 msg →
      getNextServer net (fuel + 1) s resp q = some (s2, d, n) →
      (d = false ∧ ∃ owner addr, n = some (addr, DNS_PORT) ∧
        some (owner, addr) ∈ limitToA msg.answer) ∨
      (d = true ∧ n = none)) ∧
    (∀ s1, recurse net fuel s ⟨name, Rtype.a, 1⟩ false = RRes.fail s1 →
      getNextServer net (fuel + 1) s resp q = some (s1, true, none)) := by
  constructor
  · intro s1 msg s2 d n hr hg
    simp only [getNextServer_of_subResolve net fuel s resp q name hc, hr] at hg
    cases hch : chooseFrom (rngDraw s1).1 (limitToA msg.answer) with
    | none =>
      simp only [hch] at hg
      have h3 := Option.some.inj hg
      exact Or.inr ⟨(congrArg (fun t => t.2.1) h3).symm,
        (congrArg (fun t => t.2.2) h3).symm⟩
    | some v =>
      cases v with
      | none =>
        simp only [hch] at hg
        have h3 := Option.some.inj hg
        exact Or.inr ⟨(congrArg (fun t => t.2.1) h3).symm,
          (congrArg (fun t => t.2.2) h3).symm⟩
      | some pair =>
        obtain ⟨owner, addr⟩ := pair
        simp only [hch] at hg
        have h3 := Option.some.inj hg
        exact Or.inl ⟨(congrArg (fun t => t.2.1) h3).symm, owner, addr,
          (congrArg (fun t => t.2.2) h3).symm, chooseFrom_mem hch⟩
  · intro s1 hr
    rw [getNextServer_of_subResolve net fuel s resp q name hc, hr]

/-- Witness for the amended C6 at the `respNoGlue` scenario, where the draw
lands on the unparseable item and the terminal branch is taken. -/
theorem c6_amended_subresolution_witness :
    (true = false ∧ ∃ owner addr, (none : Option Addr) = some (addr, DNS_PORT) ∧
      some (owner, addr) ∈ limitToA msgSub.answer) ∨
    (true = true ∧ (none : Option Addr) = none) :=
  (c6_amended_subresolution net6 1 s6 respNoGlue q1 ["ns1", "other"]
      (by decide)).1 s6 msgSub ⟨[], [], 0⟩ true none (by decide) (by decide)

/-- C7 counterexample: on a buffer whose bytes fail to decode, `handle_query`
returns an error (`?` on `Message::from_octets`); no reply — in particular no
`FormErr` reply — is produced, contradicting the claim. -/
theorem c7_counterexample :
    handle_query decodeFailAll netU 1 s0 [1, 2, 3] = (s0, HandleResult.err) :=
  rfl

/-- C7 amended: a buffer that fails to decode makes `handle_query` propagate
the error (the listener logs it and sends nothing); the synthesized `FormErr`
reply mirroring the request's id and flags is produced exactly when the
request decodes but does not contain exactly one question. -/
theorem c7_amended_decode_failure (decode : List Nat → Except Unit ReqInfo)
    (net : Net) (fuel : Nat) (s : DnsServer) (buf : List Nat) :
    (decode buf = Except.error () →
      handle_query decode net fuel s buf = (s, HandleResult.err)) ∧
    (∀ req, decode buf = Except.ok req → req.soleQuestion = none →
      handle_query decode net fuel s buf =
        (s, HandleResult.reply (startAnswer req Rcode.formErr))) := by
  constructor
  · intro h
    simp [handle_query, h]
  · intro req h1 h2
    simp [handle_query, h1, h2]

/-- Witness for the amended C7 on a concrete always-failing codec. -/
theorem c7_amended_decode_failure_witness :
    handle_query decodeFailAll netU 1 s0 [9] = (s0, HandleResult.err) :=
  (c7_amended_decode_failure decodeFailAll netU 1 s0 [9]).1 rfl

theorem flatMapLookup_no_bindTo (dests : List Addr) :
    (dests.flatMap (lookupOps serverSocket)).filter SockOp.isBindTo = [] := by
  induction dests with
  | nil => rfl
  | cons dd ds ih =>
    simp [List.flatMap_cons, List.filter_append, lookupOps, SockOp.isBindTo, ih]

theorem flatMapLookup_no_close (dests : List Addr) :
    (dests.flatMap (lookupOps serverSocket)).filter SockOp.isClose = [] := by
  induction dests with
  | nil => rfl
  | cons dd ds ih =>
    simp [List.flatMap_cons, List.filter_append, lookupOps, SockOp.isClose, ih]

theorem flatMapLookup_usesOnly (dests : List Addr) :
    (dests.flatMap (lookupOps serverSocket)).all
      (SockOp.usesOnly serverSocket) = true := by
  induction dests with
  | nil => rfl
  | cons dd ds ih =>
    simp [List.flatMap_cons, List.all_append, lookupOps, SockOp.usesOnly, ih]

/-- C8 counterexample: a single `lookup` call performs no socket allocation
and no socket release, and a two-query session reuses the one socket bound at
`DnsServer::new` for both upstream queries — that socket outlives every
individual query, contradicting the per-call ephemeral-socket claim. -/
theorem c8_counterexample :
    (lookupOps serverSocket (1, 53)).filter SockOp.isBindTo = [] ∧
    (lookupOps serverSocket (1, 53)).filter SockOp.isClose = [] ∧
    sessionOps [(1, 53), (2, 53)] =
      [SockOp.bindTo OUTBOUND_PORT,
       SockOp.sendTo serverSocket (1, 53), SockOp.recvFrom serverSocket,
       SockOp.sendTo serverSocket (2, 53), SockOp.recvFrom serverSocket] := by
  decide

/-- C8 amended: over any sequence of upstream queries, exactly one socket
allocation happens (at server construction, port 43210), no socket is ever
released, and every send/receive uses that single stored socket. -/
theorem c8_amended_single_socket (dests : List Addr) :
    ((sessionOps dests).filter SockOp.isBindTo).length = 1 ∧
    (sessionOps dests).filter SockOp.isClose = [] ∧
    (sessionOps dests).all (SockOp.usesOnly serverSocket) = true := by
  refine ⟨?_, ?_, ?_⟩
  · simp [sessionOps, dnsServerNewOps, List.filter_append,
      flatMapLookup_no_bindTo, SockOp.isBindTo]
  · simp [sessionOps, dnsServerNewOps, List.filter_append,
      flatMapLookup_no_close, SockOp.isClose]
  · rw [sessionOps, List.all_append, flatMapLookup_usesOnly]
    rfl

/-- C9: the listener binds `0.0.0.0:LOCAL_PORT` and `LOCAL_PORT` is 20053,
not the 2053 stated by the claim (and by the source's own comment above the
bind call). -/
theorem c9_listener_port :
    mainListenerBind = (0, 20053) ∧ LOCAL_PORT ≠ 2053 := by decide

/-- C10: the octets decoded by `lookup` always number exactly 512, whatever
the upstream datagram's length: short datagrams are zero-padded and longer
ones are truncated, because the byte count returned by `recv_from` is
discarded. -/
theorem c10_fixed_buffer (d : List Nat) :
    (lookupReceivedOctets d).length = 512 ∧
    (d.length ≤ 512 →
      lookupReceivedOctets d = d ++ List.replicate (512 - d.length) 0) ∧
    (512 ≤ d.length → lookupReceivedOctets d = d.take 512) := by
  refine ⟨?_, ?_, ?_⟩
  · simp [lookupReceivedOctets]
    omega
  · intro h
    simp [lookupReceivedOctets, List.take_of_length_le h]
  · intro h
    have h0 : 512 - d.length = 0 := Nat.sub_eq_zero_of_le h
    simp [lookupReceivedOctets, h0]

/-- Witness for C10 at a concrete 512-byte datagram, where both the padding
and the truncation descriptions apply. -/
theorem c10_fixed_buffer_witness :
    (lookupReceivedOctets (List.replicate 512 1)).length = 512 ∧
    lookupReceivedOctets (List.replicate 512 1) =
      List.replicate 512 1 ++
        List.replicate (512 - (List.replicate 512 1).length) 0 ∧
    lookupReceivedOctets (List.replicate 512 1) =
      (List.replicate 512 1).take 512 := by
  have h := c10_fixed_buffer (List.replicate 512 1)
  have hlen : (List.replicate 512 1).length = 512 := by
    rw [List.length_replicate]
  exact ⟨h.1, h.2.1 (le_of_eq hlen), h.2.2 (le_of_eq hlen.symm)⟩
